import Mathlib

/-!
Verification of the tool-calling conversation orchestrator in
`src/local_mcp_agent.py` (functions `call_local_model`, `extract_tool_call`,
`call_mcp_server` and the per-turn body of `mcp_conversation`).

The Python code is shallowly embedded: JSON values become the inductive
`MCP.Json`; Python dict operations (`get`, `in`, indexing, truthiness) become
explicit total functions returning `Except PyErr _` where the Python code can
raise; `json.loads` is modelled by an executable recursive-descent JSON parser
`jsonParse` (core JSON: null/true/false/integers/strings/arrays/objects; it
fails on anything else, like `json.loads` fails on malformed text); the
`requests` HTTP layer is abstracted as a function from the issued request to a
response, with `Response.raise_for_status` modelled by its documented contract
(raises exactly for status codes in [400, 600)).
-/

namespace MCP

/-- JSON-compatible Python values, as passed around by `local_mcp_agent.py`
(model responses, tool arguments, manifest data). Numbers are modelled as
integers; objects are association lists with the first binding of a key the
visible one (Python dicts built by the embedded code never hold duplicates). -/
inductive Json where
  | null
  | bool (b : Bool)
  | num (n : Int)
  | str (s : String)
  | arr (xs : List Json)
  | obj (fields : List (String × Json))

/-- Exceptions the embedded Python code can raise. -/
inductive PyErr where
  | attributeError
  | indexError
  | keyError
  | typeError
  | jsonDecodeError
  | runtimeError (msg : String)
  | httpError (status : Nat)
deriving DecidableEq

/-- First-match lookup in an association list, the model of Python dict
subscription/`get` on the dicts built by the embedded code. -/
def dictLookup (k : String) : List (String × α) → Option α
  | [] => none
  | (k2, v) :: rest => if k2 = k then some v else dictLookup k rest

/-- Python dict insertion: overwrite in place if the key exists, else append.
Models both dict comprehensions in the source (registry build and the
normalized-name candidates index). -/
def dictInsert (k : String) (v : α) : List (String × α) → List (String × α)
  | [] => [(k, v)]
  | (k2, v2) :: rest => if k2 = k then (k, v) :: rest else (k2, v2) :: dictInsert k v rest

/-- Python truthiness of a JSON-shaped value (`if x:`). -/
def pyTruthy : Json → Bool
  | .null => false
  | .bool b => b
  | .num n => decide (n ≠ 0)
  | .str s => decide (s ≠ "")
  | .arr xs => !xs.isEmpty
  | .obj fs => !fs.isEmpty

/-- Python `x.get(k)` with default `None`: `AttributeError` on a non-dict. -/
def pyGet (o : Json) (k : String) : Except PyErr Json :=
  match o with
  | .obj fs => .ok ((dictLookup k fs).getD .null)
  | _ => .error .attributeError

/-- Python `x.get(k, d)`: `AttributeError` on a non-dict. -/
def pyGetD (o : Json) (k : String) (d : Json) : Except PyErr Json :=
  match o with
  | .obj fs => .ok ((dictLookup k fs).getD d)
  | _ => .error .attributeError

/-- Python `x[0]` as used on the `response.get("messages", [{}])` fallback:
first element of a list, first character of a string, `IndexError` when empty,
`KeyError` for a dict without integer keys, `TypeError` otherwise. -/
def pyIndex0 : Json → Except PyErr Json
  | .arr (x :: _) => .ok x
  | .arr [] => .error .indexError
  | .str s =>
    match s.data with
    | c :: _ => .ok (.str (String.mk [c]))
    | [] => .error .indexError
  | .obj _ => .error .keyError
  | _ => .error .typeError

/-- Whitespace skipped by the JSON grammar. -/
def isWsChar (c : Char) : Bool := c = ' ' || c = '\n' || c = '\t' || c = '\r'

/-- Drop leading JSON whitespace. -/
def skipWs : List Char → List Char
  | [] => []
  | c :: cs => if isWsChar c then skipWs cs else c :: cs

/-- Minimal JSON string escapes (`\n`, `\t`, `\r`; any other escaped character
stands for itself, which covers `\"` and `\\`). -/
def unescapeChar (c : Char) : Char :=
  if c = 'n' then '\n' else if c = 't' then '\t' else if c = 'r' then '\r' else c

/-- Parse the body of a JSON string after the opening quote; returns the
decoded string and the remaining characters after the closing quote. -/
def parseStrBody (fuel : Nat) (cs : List Char) : Option (String × List Char) :=
  match fuel with
  | 0 => none
  | f + 1 =>
    match cs with
    | [] => none
    | '"' :: rest => some ("", rest)
    | '\\' :: c :: rest =>
      match parseStrBody f rest with
      | some (s, r) => some (String.mk (unescapeChar c :: s.data), r)
      | none => none
    | c :: rest =>
      match parseStrBody f rest with
      | some (s, r) => some (String.mk (c :: s.data), r)
      | none => none

/-- Accumulate a run of decimal digits. -/
def digitsAux : List Char → Nat → Nat × List Char
  | [], acc => (acc, [])
  | c :: cs, acc =>
    if c.isDigit then digitsAux cs (acc * 10 + (c.toNat - '0'.toNat)) else (acc, c :: cs)

/-- Parse a JSON integer (optional leading minus). -/
def parseNumber (cs : List Char) : Option (Json × List Char) :=
  match cs with
  | '-' :: c :: rest =>
    if c.isDigit then
      let (n, r) := digitsAux (c :: rest) 0
      some (.num (-(n : Int)), r)
    else none
  | c :: rest =>
    if c.isDigit then
      let (n, r) := digitsAux (c :: rest) 0
      some (.num (n : Int), r)
    else none
  | [] => none

mutual

/-- Parse one JSON value; fuel bounds the recursion depth. -/
def parseValue (fuel : Nat) (cs : List Char) : Option (Json × List Char) :=
  match fuel with
  | 0 => none
  | f + 1 =>
    match skipWs cs with
    | 'n' :: 'u' :: 'l' :: 'l' :: rest => some (.null, rest)
    | 't' :: 'r' :: 'u' :: 'e' :: rest => some (.bool true, rest)
    | 'f' :: 'a' :: 'l' :: 's' :: 'e' :: rest => some (.bool false, rest)
    | '"' :: rest =>
      match parseStrBody (rest.length + 1) rest with
      | some (s, r) => some (.str s, r)
      | none => none
    | '[' :: rest =>
      match parseArrayRest f true rest with
      | some (vs, r) => some (.arr vs, r)
      | none => none
    | '{' :: rest =>
      match parseObjectRest f true rest with
      | some (kvs, r) => some (.obj kvs, r)
      | none => none
    | other => parseNumber other

/-- Parse the items of a JSON array after `[` (or after a comma, in which case
an immediate `]` is not allowed). -/
def parseArrayRest (fuel : Nat) (allowEnd : Bool) (cs : List Char) :
    Option (List Json × List Char) :=
  match fuel with
  | 0 => none
  | f + 1 =>
    match skipWs cs with
    | ']' :: rest => if allowEnd then some ([], rest) else none
    | cs2 =>
      match parseValue f cs2 with
      | none => none
      | some (v, r) =>
        match skipWs r with
        | ',' :: r2 =>
          match parseArrayRest f false r2 with
          | some (vs, r3) => some (v :: vs, r3)
          | none => none
        | ']' :: r2 => some ([v], r2)
        | _ => none

/-- Parse the members of a JSON object after `{` (or after a comma, in which
case an immediate `}` is not allowed). -/
def parseObjectRest (fuel : Nat) (allowEnd : Bool) (cs : List Char) :
    Option (List (String × Json) × List Char) :=
  match fuel with
  | 0 => none
  | f + 1 =>
    match skipWs cs with
    | '}' :: rest => if allowEnd then some ([], rest) else none
    | '"' :: rest =>
      match parseStrBody (rest.length + 1) rest with
      | none => none
      | some (k, r) =>
        match skipWs r with
        | ':' :: r2 =>
          match parseValue f r2 with
          | none => none
          | some (v, r3) =>
            match skipWs r3 with
            | ',' :: r4 =>
              match parseObjectRest f false r4 with
              | some (kvs, r5) => some ((k, v) :: kvs, r5)
              | none => none
            | '}' :: r4 => some ([(k, v)], r4)
            | _ => none
        | _ => none
    | _ => none

end

/-- Model of Python `json.loads` on a string: parse one JSON document with
nothing but whitespace after it, or fail (a `json.JSONDecodeError`). -/
def jsonParse (s : String) : Option Json :=
  match parseValue (2 * s.length + 2) s.data with
  | some (v, rest) => if skipWs rest = [] then some v else none
  | none => none

/-- Python `str.strip()`: drop leading and trailing whitespace. -/
def pyStrip (s : String) : String :=
  String.mk (((s.data.dropWhile isWsChar).reverse.dropWhile isWsChar).reverse)

/-- `trimmed.startswith("\x7b")` from `extract_tool_call`. -/
def hasBraceStart (s : String) : Bool :=
  match s.data with
  | c :: _ => c = '{'
  | [] => false

/-- Leading-match test for character lists. -/
def listStartsWith : List Char → List Char → Bool
  | [], _ => true
  | _ :: _, [] => false
  | a :: as, b :: bs => a = b && listStartsWith as bs

/-- Does `needle` occur starting at any position of the character list? -/
def containsFrom (needle : List Char) : List Char → Bool
  | [] => listStartsWith needle []
  | c :: cs => listStartsWith needle (c :: cs) || containsFrom needle cs

/-- Python substring test `needle in hay`. -/
def strContains (hay needle : String) : Bool := containsFrom needle.data hay.data

/-- The canonical extracted call `{"name": ..., "arguments": ...}` returned by
`extract_tool_call`. The name is whatever `fn_call.get("name")` produced, so it
is an arbitrary JSON value (possibly `null`). -/
structure ToolCall where
  name : Json
  arguments : Json

/-- The `arguments` handling shared by both branches of `extract_tool_call`
(lines 78-85 and 96-103 of `local_mcp_agent.py`):

    try:
        if isinstance(args_raw, dict): args = args_raw
        else: args = json.loads(args_raw) if args_raw else \x7b\x7d
    except json.JSONDecodeError:
        args = \x7b\x7d

Only `json.JSONDecodeError` is caught; `json.loads` on a truthy value that is
neither `dict` nor `str` raises an uncaught `TypeError`. -/
def decodeArgs (argsRaw : Json) : Except PyErr Json :=
  match argsRaw with
  | .obj fs => .ok (.obj fs)
  | _ =>
    if pyTruthy argsRaw then
      match argsRaw with
      | .str s =>
        match jsonParse s with
        | some j => .ok j
        | none => .ok (.obj [])
      | _ => .error .typeError
    else .ok (.obj [])

/-- Build the `{"name": ..., "arguments": ...}` record from a truthy
`function_call` value: `args_raw = fn_call.get("arguments", "\x7b\x7d")`, the
argument decoding above, then `fn_call.get("name")`. -/
def structuredCall (fnCall : Json) : Except PyErr ToolCall :=
  match pyGetD fnCall "arguments" (.str "\x7b\x7d") with
  | .error e => .error e
  | .ok argsRaw =>
    match decodeArgs argsRaw with
    | .error e => .error e
    | .ok args =>
      match pyGetD fnCall "name" .null with
      | .error e => .error e
      | .ok nm => .ok ⟨nm, args⟩

/-- The body of the `try` on lines 92-104: `json.loads(trimmed)`, then the
`function_call` field, then the same record construction. Any error here is
caught by the surrounding `except Exception`. -/
def embeddedBody (trimmed : String) : Except PyErr (Option ToolCall) :=
  match jsonParse trimmed with
  | none => .error .jsonDecodeError
  | some parsed =>
    match pyGet parsed "function_call" with
    | .error e => .error e
    | .ok fnCall =>
      if pyTruthy fnCall then
        match structuredCall fnCall with
        | .error e => .error e
        | .ok tc => .ok (some tc)
      else .ok none

/-- `extract_tool_call(response)` together with the lines it prints: the
function takes the stdout produced so far and returns the extraction result
(or the Python exception it raises) paired with the new stdout. The only
prints are the two diagnostic lines emitted when the embedded-JSON parse
attempt fails (lines 106-107 of the source). -/
def extractRun (response : Json) (stdout : List String) :
    Except PyErr (Option ToolCall) × List String :=
  match pyGet response "message" with
  | .error e => (.error e, stdout)
  | .ok m1 =>
    match (if pyTruthy m1 then .ok m1 else
            match pyGetD response "messages" (.arr [.obj []]) with
            | .error e => .error e
            | .ok ms => pyIndex0 ms : Except PyErr Json) with
    | .error e => (.error e, stdout)
    | .ok message =>
      if pyTruthy message = false then (.ok none, stdout)
      else
        match pyGet message "function_call" with
        | .error e => (.error e, stdout)
        | .ok fnCall =>
          if pyTruthy fnCall then
            match structuredCall fnCall with
            | .error e => (.error e, stdout)
            | .ok tc => (.ok (some tc), stdout)
          else
            match pyGet message "content" with
            | .error e => (.error e, stdout)
            | .ok content =>
              match content with
              | .str s =>
                if hasBraceStart (pyStrip s) && strContains (pyStrip s) "function_call" then
                  match embeddedBody (pyStrip s) with
                  | .ok (some tc) => (.ok (some tc), stdout)
                  | .ok none => (.ok none, stdout)
                  | .error _ =>
                    (.ok none,
                     stdout ++
                       ["Failed to parse potential function_call JSON from content: " ++ s,
                        "Parse error"])
                else (.ok none, stdout)
              | _ => (.ok none, stdout)

/-- `extract_tool_call` as a value-level function (its result; the prints are
available through `extractRun`). -/
def extract_tool_call (response : Json) : Except PyErr (Option ToolCall) :=
  (extractRun response []).1

/-- The invocation metadata of one manifest tool that `call_mcp_server`
consults: `tool_def.get("method", "POST")` and `tool_def.get("path")`. Fields
of a manifest entry that the dispatcher never reads (description, input
schema) are omitted. -/
structure ToolDef where
  method : Option String
  path : Option String
deriving DecidableEq

/-- One entry of the manifest `tools` list: a `name` (the manifest contract in
the spec declares it a string) plus the invocation metadata. -/
structure ManifestTool where
  name : String
  tdef : ToolDef
deriving DecidableEq

/-- The tool registry built on line 159 of `local_mcp_agent.py`:
`tools = \x7btool["name"]: tool for tool in tools_list\x7d` — a Python dict
comprehension keyed by the raw tool name, later duplicates overwriting
earlier ones. -/
def buildRegistry (ts : List ManifestTool) : List (String × ToolDef) :=
  ts.foldl (fun d t => dictInsert t.name t.tdef d) []

/-- The `normalize` helper inside `call_mcp_server`:
`"".join(ch.lower() for ch in name if ch.isalnum() or ch == "_")` — keep
alphanumerics and underscores, lower-case them. -/
def normalize (name : String) : String :=
  String.mk ((name.data.filter (fun ch => ch.isAlphanum || ch = '_')).map Char.toLower)

/-- The normalized-name index `candidates = \x7bnormalize(k): k for k in tools\x7d`
built when the exact lookup misses. -/
def candidatesOf (tools : List (String × ToolDef)) : List (String × String) :=
  tools.foldl (fun d kv => dictInsert (normalize kv.1) kv.1 d) []

/-- Name resolution of `call_mcp_server` (lines 123-133): exact dict lookup
first, then a lookup of the normalized name in the candidates index, yielding
the canonical name and its tool definition, or nothing (the `RuntimeError`
branch). -/
def resolveTool (toolName : String) (tools : List (String × ToolDef)) :
    Option (String × ToolDef) :=
  match dictLookup toolName tools with
  | some td => some (toolName, td)
  | none =>
    match dictLookup (normalize toolName) (candidatesOf tools) with
    | some canonical => (dictLookup canonical tools).map (fun td => (canonical, td))
    | none => none

/-- Lexicographic (code-point) comparison of strings, the order used by
Python `sorted` on the tool names. -/
def charListLt : List Char → List Char → Bool
  | [], [] => false
  | [], _ :: _ => true
  | _ :: _, [] => false
  | a :: as, b :: bs => if a < b then true else if b < a then false else charListLt as bs

/-- `strBefore a b` holds when `a` sorts strictly before `b`. -/
def strBefore (a b : String) : Bool := charListLt a.data b.data

/-- Insertion into a sorted list of strings. -/
def insertSorted (x : String) : List String → List String
  | [] => [x]
  | y :: ys => if strBefore y x then y :: insertSorted x ys else x :: y :: ys

/-- Model of Python `sorted` on a list of strings (insertion sort). -/
def sortStrings (l : List String) : List String := l.foldr insertSorted []

/-- The `RuntimeError` message of the unknown-tool branch:
`f"Unknown tool: '\x7btool_name\x7d'. Valid tools are: \x7bvalid_tools\x7d"` with
`valid_tools = ", ".join(sorted(tools.keys()))`. -/
def unknownToolMsg (toolName : String) (tools : List (String × ToolDef)) : String :=
  "Unknown tool: \x27" ++ toolName ++ "\x27. Valid tools are: " ++
    String.intercalate ", " (sortStrings (tools.map Prod.fst))

mutual

/-- Python `repr` of a JSON-shaped value. -/
def pyRepr : Json → String
  | .null => "None"
  | .bool true => "True"
  | .bool false => "False"
  | .num n => toString n
  | .str s => "\x27" ++ s ++ "\x27"
  | .arr xs => "[" ++ pyReprArr xs ++ "]"
  | .obj fs => "\x7b" ++ pyReprObj fs ++ "\x7d"

/-- Comma-joined `repr`s of list elements. -/
def pyReprArr : List Json → String
  | [] => ""
  | [x] => pyRepr x
  | x :: y :: xs => pyRepr x ++ ", " ++ pyReprArr (y :: xs)

/-- Comma-joined `repr`s of dict items. -/
def pyReprObj : List (String × Json) → String
  | [] => ""
  | [(k, v)] => "\x27" ++ k ++ "\x27: " ++ pyRepr v
  | (k, v) :: y :: xs => "\x27" ++ k ++ "\x27: " ++ pyRepr v ++ ", " ++ pyReprObj (y :: xs)

end

/-- Python `str()` as used in f-string interpolation of `arguments`. -/
def pyStrOf : Json → String
  | .str s => s
  | j => pyRepr j

/-- The `RuntimeError` message of the argument-shape check:
`f"Tool arguments must be an object, got: \x7barguments\x7d"`. -/
def invalidArgsMsg (arguments : Json) : String :=
  "Tool arguments must be an object, got: " ++ pyStrOf arguments

/-- Is the value a Python dict (`isinstance(arguments, dict)`)? -/
def Json.isObj : Json → Bool
  | .obj _ => true
  | _ => false

/-- Python `str.rstrip("/")`: drop every trailing slash. -/
def stripTrailingSlashes (s : String) : String :=
  String.mk ((s.data.reverse.dropWhile (fun c => c = '/')).reverse)

/-- Model of `str.upper()`. -/
def strUpper (s : String) : String := String.mk (s.data.map Char.toUpper)

/-- The HTTP request `call_mcp_server` hands to `requests`: for a GET tool,
`requests.get(url, params=arguments)`; otherwise `requests.post(url,
json=arguments)`. -/
structure HttpRequest where
  method : String
  url : String
  params : Option Json
  body : Option Json

/-- The response of the tool backend: HTTP status code and (JSON-decoded)
body, abstracting `requests`' `Response`. -/
structure HttpResponse where
  status : Nat
  body : Json

/-- The request that `call_mcp_server` issues once the name resolved and the
arguments passed the shape check (lines 135-147): the `RuntimeError`s of the
two validations otherwise. `method` is `tool_def.get("method", "POST").upper()`;
`path` is `tool_def.get("path") or f"/mcp/\x7btool_name\x7d"` (the `or` also
replaces an empty path, and the default uses the canonical resolved name);
`url = base_url.rstrip("/") + path`. Any declared method other than GET takes
the `requests.post` branch. -/
def mcpRequest (toolName : String) (arguments : Json) (tools : List (String × ToolDef))
    (baseUrl : String) : Except PyErr HttpRequest :=
  match resolveTool toolName tools with
  | none => .error (.runtimeError (unknownToolMsg toolName tools))
  | some (cname, td) =>
    if arguments.isObj then
      let method := strUpper (td.method.getD "POST")
      let path :=
        match td.path with
        | some p => if p = "" then "/mcp/" ++ cname else p
        | none => "/mcp/" ++ cname
      let url := stripTrailingSlashes baseUrl ++ path
      if method = "GET" then .ok ⟨"GET", url, some arguments, none⟩
      else .ok ⟨"POST", url, none, some arguments⟩
    else .error (.runtimeError (invalidArgsMsg arguments))

/-- `call_mcp_server(tool_name, arguments, tools, base_url)` with the HTTP
layer abstracted as `http`. `resp.raise_for_status()` raises `HTTPError`
exactly for status codes in [400, 600) (4xx client errors and 5xx server
errors — its documented contract); otherwise the JSON body is returned. -/
def call_mcp_server (http : HttpRequest → HttpResponse) (toolName : String)
    (arguments : Json) (tools : List (String × ToolDef)) (baseUrl : String) :
    Except PyErr Json :=
  match mcpRequest toolName arguments tools baseUrl with
  | .error e => .error e
  | .ok req =>
    let resp := http req
    if 400 ≤ resp.status ∧ resp.status < 600 then .error (.httpError resp.status)
    else .ok resp.body

/-- The outbound payload built by `call_local_model` (lines 41-43):
`payload = \x7b"model": model, "messages": messages, "stream": False\x7d` and then
`if tools: payload["functions"] = tools` — the `functions` key is added only
when the tools argument is truthy (present and a non-empty list). -/
structure ModelPayload where
  model : String
  messages : List Json
  stream : Bool
  functions : Option (List Json)

/-- Payload construction of `call_local_model`. -/
def buildModelPayload (messages : List Json) (model : String)
    (tools : Option (List Json)) : ModelPayload :=
  { model := model
    messages := messages
    stream := false
    functions :=
      match tools with
      | some (t :: ts) => some (t :: ts)
      | _ => none }

/-- What the orchestrator's turn body reports to the user at the end of a
turn, one constructor per `print`/fall-through in lines 241-264 of
`mcp_conversation`. -/
inductive TurnOutcome where
  | noCallDebug (raw : Json)
  | assistantMsg (msg : Json)
  | noAssistantMsgDebug (raw : Json)
  | silentEnd
  | retryFailed (err : String)

/-- The user-visible line each outcome prints (empty for the silent
fall-through when the retry response's content is falsy). -/
def printedLine : TurnOutcome → String
  | .noCallDebug raw => "No tool_call found. Raw response for debugging: " ++ pyRepr raw
  | .assistantMsg msg => "Assistant: " ++ pyStrOf msg
  | .noAssistantMsgDebug raw => "No assistant message after tool call. Raw response: " ++ pyRepr raw
  | .silentEnd => ""
  | .retryFailed err => "Retry also failed: " ++ err

/-- Result of one user turn: how many dispatch attempts (`call_mcp_server`
calls) were made, and how it ended (`.error` when an uncaught Python
exception escaped the turn). -/
structure TurnRes where
  attempts : Nat
  outcome : Except PyErr TurnOutcome

/-- `assistant_msg = response2.get("message", \x7b\x7d).get("content")`
(lines 244 and 258). -/
def getAssistantMsg (resp : Json) : Except PyErr Json :=
  match pyGetD resp "message" (.obj []) with
  | .error e => .error e
  | .ok m => pyGet m "content"

/-- Lines 257-262: print the assistant content when truthy, else the
diagnostic dump of the raw response. -/
def finalReport (resp : Json) : Except PyErr TurnOutcome :=
  match getAssistantMsg resp with
  | .error e => .error e
  | .ok m => if pyTruthy m then .ok (.assistantMsg m) else .ok (.noAssistantMsgDebug resp)

/-- The body of the `while True` loop of `mcp_conversation` for one user turn
(lines 204-264). The model channel is represented by the values of its up to
three calls in the turn: `r1` (the reply to the user message), `r2` (the reply
after the first tool result or error is appended), `r3` (the reply after a
successful retry's result is appended); the dispatcher (`call_mcp_server`
applied to the registry, base URL and HTTP layer) is abstracted as `dispatch`,
whose errors model the exceptions caught by `except Exception`. The transcript
appends do not influence the turn's control flow, so they are not tracked. -/
def runTurn (r1 r2 r3 : Json) (dispatch : Json → Json → Except String Json) : TurnRes :=
  match extract_tool_call r1 with
  | .error e => ⟨0, .error e⟩
  | .ok none => ⟨0, .ok (.noCallDebug r1)⟩
  | .ok (some tc) =>
    match dispatch tc.name tc.arguments with
    | .ok _ => ⟨1, finalReport r2⟩
    | .error _ =>
      match extract_tool_call r2 with
      | .error e => ⟨1, .error e⟩
      | .ok (some tc2) =>
        match dispatch tc2.name tc2.arguments with
        | .ok _ => ⟨2, finalReport r3⟩
        | .error e2 => ⟨2, .ok (.retryFailed e2)⟩
      | .ok none =>
        match getAssistantMsg r2 with
        | .error e => ⟨1, .error e⟩
        | .ok m => ⟨1, .ok (if pyTruthy m then .assistantMsg m else .silentEnd)⟩

/-- A backend that always answers 200 with a null body, used to exercise the
dispatcher at concrete inputs. -/
def httpOk : HttpRequest → HttpResponse := fun _ => ⟨200, .null⟩

/-- A model response with no tool call and content `"Hello"`. -/
def rHello : Json := .obj [("message", .obj [("content", .str "Hello")])]

/-- A model response carrying a structured call of tool `t` with `{}`
arguments. -/
def rCallT : Json :=
  .obj [("message", .obj [("function_call", .obj [("name", .str "t"), ("arguments", .obj [])])])]

/-- A dispatcher that fails every invocation. -/
def dAlwaysFail : Json → Json → Except String Json := fun _ _ => .error "dispatch failed"

/-- A registry holding the single canonical tool `list_tasks`. -/
def regListTasks : List (String × ToolDef) := [("list_tasks", ⟨none, some "/mcp/list_tasks"⟩)]

/-- A registry holding the two canonical tools `list_tasks` and `add_task`. -/
def regTwo : List (String × ToolDef) := [("list_tasks", ⟨none, none⟩), ("add_task", ⟨none, none⟩)]

/-- Concatenation of strings concatenates their character data. -/
theorem string_append_data (a b : String) : (a ++ b).data = a.data ++ b.data := rfl

/-- The unknown-tool message and the invalid-arguments message are never the
same string (they start with different characters). -/
theorem unknown_ne_invalid (n : String) (ts : List (String × ToolDef)) (a : Json) :
    unknownToolMsg n ts ≠ invalidArgsMsg a := by
  intro h
  obtain ⟨l1, h1⟩ : ∃ l, (unknownToolMsg n ts).data = 'U' :: l := ⟨_, rfl⟩
  obtain ⟨l2, h2⟩ : ∃ l, (invalidArgsMsg a).data = 'T' :: l := ⟨_, rfl⟩
  rw [h] at h1
  have h3 := h1.symm.trans h2
  injection h3 with hc _
  exact absurd hc (by decide)

/-- Membership in an insertion step of the sort. -/
theorem mem_insertSorted (x y : String) (l : List String) :
    y ∈ insertSorted x l ↔ y = x ∨ y ∈ l := by
  induction l with
  | nil => simp [insertSorted]
  | cons a l ih =>
    simp only [insertSorted]
    split
    · simp only [List.mem_cons, ih]
      tauto
    · simp only [List.mem_cons]

/-- Sorting the tool names preserves exactly their membership. -/
theorem mem_sortStrings (y : String) (l : List String) :
    y ∈ sortStrings l ↔ y ∈ l := by
  induction l with
  | nil => simp [sortStrings]
  | cons a l ih =>
    simp only [sortStrings, List.foldr] at *
    rw [mem_insertSorted]
    simp [ih]

/-- The keys reachable after a Python dict insertion. -/
theorem mem_dictInsert_keys (k : String) (v : α) (d : List (String × α)) (m : String) :
    m ∈ (dictInsert k v d).map Prod.fst ↔ m = k ∨ m ∈ d.map Prod.fst := by
  induction d with
  | nil => simp [dictInsert]
  | cons kv d ih =>
    obtain ⟨k2, v2⟩ := kv
    simp only [dictInsert]
    split
    · next heq =>
      subst heq
      simp
    · next hne =>
      simp [ih]
      tauto

/-- Python dict insertion keeps the keys duplicate-free. -/
theorem nodup_dictInsert_keys (k : String) (v : α) (d : List (String × α))
    (h : (d.map Prod.fst).Nodup) : ((dictInsert k v d).map Prod.fst).Nodup := by
  induction d with
  | nil => simp [dictInsert]
  | cons kv d ih =>
    obtain ⟨k2, v2⟩ := kv
    simp only [List.map_cons, List.nodup_cons] at h
    simp only [dictInsert]
    split
    · next heq =>
      subst heq
      simp only [List.map_cons, List.nodup_cons]
      exact h
    · next hne =>
      simp only [List.map_cons, List.nodup_cons]
      refine ⟨?_, ih h.2⟩
      rw [mem_dictInsert_keys]
      rintro (rfl | hk)
      · exact hne rfl
      · exact h.1 hk

/-- Folding manifest entries into a dict yields duplicate-free keys that are
exactly the accumulated keys plus the entry names. -/
theorem buildRegistry_aux (ts : List ManifestTool) (d : List (String × ToolDef))
    (h : (d.map Prod.fst).Nodup) :
    ((ts.foldl (fun acc t => dictInsert t.name t.tdef acc) d).map Prod.fst).Nodup
      ∧ ∀ k, k ∈ (ts.foldl (fun acc t => dictInsert t.name t.tdef acc) d).map Prod.fst
          ↔ k ∈ d.map Prod.fst ∨ k ∈ ts.map ManifestTool.name := by
  induction ts generalizing d with
  | nil => simpa using h
  | cons t ts ih =>
    simp only [List.foldl_cons, List.map_cons]
    obtain ⟨ihn, ihm⟩ := ih (dictInsert t.name t.tdef d) (nodup_dictInsert_keys _ _ _ h)
    refine ⟨ihn, fun k => ?_⟩
    rw [ihm k, mem_dictInsert_keys]
    simp only [List.mem_cons]
    tauto

/-- C1 (code bug witness): against the registry whose only tool is the
canonical `list_tasks`, dispatching `"listTasks"` does NOT resolve to the
`list_tasks` backend call — `normalize` keeps underscores, so
`normalize "listTasks" = "listtasks"` misses the index entry
`"list_tasks"` and the dispatcher raises the unknown-tool `RuntimeError`,
while dispatching `"list_tasks"` succeeds and issues
`POST <base>/mcp/list_tasks`. This contradicts the claim (and the source's
own comment that the normalized lookup "helps when model returns snake_case
vs camelCase"). -/
theorem c1_camel_name_rejected :
    call_mcp_server httpOk "listTasks" (.obj []) regListTasks "http://localhost:8000"
        = .error (.runtimeError "Unknown tool: \x27listTasks\x27. Valid tools are: list_tasks")
      ∧ call_mcp_server httpOk "list_tasks" (.obj []) regListTasks "http://localhost:8000"
        = .ok .null
      ∧ mcpRequest "list_tasks" (.obj []) regListTasks "http://localhost:8000"
        = .ok ⟨"POST", "http://localhost:8000/mcp/list_tasks", none, some (.obj [])⟩
      ∧ normalize "listTasks" = "listtasks"
      ∧ normalize "list_tasks" = "list_tasks" :=
  ⟨rfl, rfl, rfl, rfl, rfl⟩

/-- C2 (counterexample): with the always-failing dispatcher, a turn whose
first model response carries a call (dispatched once, failing) but whose
post-error model response carries no call performs exactly ONE dispatch
attempt, not two — the claimed "exactly two attempts regardless of the
model's responses" is false. -/
theorem c2_counterexample :
    (runTurn rCallT rHello rHello dAlwaysFail).attempts = 1 ∧ (1 : Nat) ≠ 2 :=
  ⟨rfl, by decide⟩

/-- C2 (amended): per user turn the orchestrator performs at most two
dispatch attempts, never a third, for every model behavior and dispatcher;
and exactly two occur when the dispatcher always fails and both the initial
and the post-error model responses carry extractable tool calls. -/
theorem c2_retry_bound (r1 r2 r3 : Json) (d : Json → Json → Except String Json)
    (tc1 tc2 : ToolCall)
    (h1 : extract_tool_call r1 = .ok (some tc1))
    (h2 : extract_tool_call r2 = .ok (some tc2))
    (hfail : ∀ n a, ∃ e, d n a = .error e) :
    (runTurn r1 r2 r3 d).attempts = 2
      ∧ ∀ (q1 q2 q3 : Json) (d2 : Json → Json → Except String Json),
          (runTurn q1 q2 q3 d2).attempts ≤ 2 := by
  constructor
  · obtain ⟨e1, he1⟩ := hfail tc1.name tc1.arguments
    obtain ⟨e2, he2⟩ := hfail tc2.name tc2.arguments
    simp [runTurn, h1, h2, he1, he2]
  · intro q1 q2 q3 d2
    unfold runTurn
    repeat' split
    all_goals simp

/-- C2 (witness): the retry bound at a concrete failing run — both responses
carry the call of tool `t`, the dispatcher always fails, and exactly two
dispatch attempts happen. -/
theorem c2_witness :
    (runTurn rCallT rCallT rHello dAlwaysFail).attempts = 2
      ∧ ∀ (q1 q2 q3 : Json) (d2 : Json → Json → Except String Json),
          (runTurn q1 q2 q3 d2).attempts ≤ 2 :=
  c2_retry_bound rCallT rCallT rHello dAlwaysFail ⟨.str "t", .obj []⟩ ⟨.str "t", .obj []⟩
    rfl rfl (fun _ _ => ⟨"dispatch failed", rfl⟩)

/-- C3 (counterexample): on the response with content `"Hello"` and no call,
the extractor does return null, but the orchestrator does NOT report
`"Hello"` verbatim as the final answer — it ends the turn with the
debugging dump of the raw response, a different outcome printing a different
line. -/
theorem c3_counterexample :
    (runTurn rHello rHello rHello dAlwaysFail).outcome = .ok (.noCallDebug rHello)
      ∧ TurnOutcome.noCallDebug rHello ≠ TurnOutcome.assistantMsg (.str "Hello")
      ∧ printedLine (.noCallDebug rHello)
          = "No tool_call found. Raw response for debugging: " ++ pyRepr rHello :=
  ⟨rfl, by simp, rfl⟩

/-- C3 (amended): for every message object with no `function_call` field and
content `"Hello"`, the extractor returns null and the orchestrator performs
no dispatch and no retry, ending the turn with the raw-response debugging
report instead of the content verbatim. -/
theorem c3_no_call_final_answer (mfields : List (String × Json)) (r2 r3 : Json)
    (d : Json → Json → Except String Json)
    (hfn : dictLookup "function_call" mfields = none)
    (hct : dictLookup "content" mfields = some (.str "Hello")) :
    extract_tool_call (.obj [("message", .obj mfields)]) = .ok none
      ∧ runTurn (.obj [("message", .obj mfields)]) r2 r3 d
          = ⟨0, .ok (.noCallDebug (.obj [("message", .obj mfields)]))⟩ := by
  have hne : mfields ≠ [] := by
    rintro rfl
    simp [dictLookup] at hct
  have hie : mfields.isEmpty = false := by
    cases mfields with
    | nil => exact absurd rfl hne
    | cons a l => rfl
  have hex : extract_tool_call (.obj [("message", .obj mfields)]) = .ok none := by
    simp [extract_tool_call, extractRun, pyGet, pyGetD, dictLookup, pyTruthy, hfn, hct, hie]
    rfl
  exact ⟨hex, by simp [runTurn, hex]⟩

/-- C3 (witness): the no-call path at the concrete `"Hello"` response. -/
theorem c3_witness :
    extract_tool_call (.obj [("message", .obj [("content", .str "Hello")])]) = .ok none
      ∧ runTurn (.obj [("message", .obj [("content", .str "Hello")])]) rHello rHello dAlwaysFail
          = ⟨0, .ok (.noCallDebug (.obj [("message", .obj [("content", .str "Hello")])]))⟩ :=
  c3_no_call_final_answer [("content", .str "Hello")] rHello rHello dAlwaysFail rfl rfl

/-- C4 (counterexample): a manifest with the two distinct tool names
`list_tasks` and `List_Tasks`, which normalize to the same key, builds a
registry with TWO entries — one per distinct RAW name, not one per distinct
post-normalization name — and nothing is flagged: the build is total and
keeps both. -/
theorem c4_counterexample :
    buildRegistry [⟨"list_tasks", ⟨none, some "/a"⟩⟩, ⟨"List_Tasks", ⟨none, some "/b"⟩⟩]
        = [("list_tasks", ⟨none, some "/a"⟩), ("List_Tasks", ⟨none, some "/b"⟩)]
      ∧ normalize "list_tasks" = normalize "List_Tasks"
      ∧ "list_tasks" ≠ "List_Tasks" :=
  ⟨rfl, rfl, by decide⟩

/-- C4 (amended): building the registry produces exactly one entry per
distinct RAW tool name (keys are duplicate-free and are exactly the manifest
names; on exact-name duplicates the later entry overwrites). Names that merely
normalize to the same key are kept as separate entries and never flagged. -/
theorem c4_registry_raw_names (ts : List ManifestTool) :
    ((buildRegistry ts).map Prod.fst).Nodup
      ∧ ∀ k, k ∈ (buildRegistry ts).map Prod.fst ↔ k ∈ ts.map ManifestTool.name := by
  have h := buildRegistry_aux ts [] (by simp)
  simpa [buildRegistry] using h

/-- C5 (counterexample): extraction CAN raise — a structured `function_call`
whose `arguments` value is a (truthy) list reaches `json.loads` with a
non-string argument, raising an uncaught `TypeError`. -/
theorem c5_counterexample :
    extract_tool_call (.obj [("message", .obj [("function_call",
        .obj [("name", .str "t"), ("arguments", .arr [.num 1])])])]) = .error .typeError :=
  rfl

/-- C5 (amended): in the two failure modes the claim describes, extraction
does not raise: a string `arguments` value that fails JSON decoding yields a
call with empty arguments, and message content that looks like embedded call
JSON but fails to parse yields null (no call detected). -/
theorem c5_decode_failure_recovery :
    (∀ (nm : Json) (s : String), jsonParse s = none →
        extract_tool_call (.obj [("message", .obj [("function_call",
            .obj [("name", nm), ("arguments", .str s)])])])
          = .ok (some ⟨nm, .obj []⟩))
      ∧ ∀ s : String,
          hasBraceStart (pyStrip s) = true →
          strContains (pyStrip s) "function_call" = true →
          jsonParse (pyStrip s) = none →
          extract_tool_call (.obj [("message", .obj [("content", .str s)])]) = .ok none := by
  constructor
  · intro nm s hp
    have hd : decodeArgs (.str s) = .ok (.obj []) := by
      by_cases he : s = ""
      · subst he
        simp [decodeArgs, pyTruthy]
      · simp [decodeArgs, pyTruthy, he, hp]
    simp [extract_tool_call, extractRun, pyGet, pyGetD, dictLookup, pyTruthy, structuredCall, hd]
  · intro s hb hc hp
    simp [extract_tool_call, extractRun, pyGet, pyGetD, dictLookup, pyTruthy, hb, hc,
          embeddedBody, hp]

/-- C5 (witness): the two recovery modes at concrete inputs — the undecodable
argument string and the undecodable embedded content both starting with a
brace and containing the call marker. -/
theorem c5_witness :
    jsonParse "\x7bbad" = none
      ∧ extract_tool_call (.obj [("message", .obj [("function_call",
            .obj [("name", .str "t"), ("arguments", .str "\x7bbad")])])])
          = .ok (some ⟨.str "t", .obj []⟩)
      ∧ extract_tool_call (.obj [("message",
            .obj [("content", .str "\x7bfunction_call oops")])])
          = .ok none :=
  ⟨rfl, c5_decode_failure_recovery.1 (.str "t") "\x7bbad" rfl,
    c5_decode_failure_recovery.2 "\x7bfunction_call oops" rfl rfl rfl⟩

/-- C6 (counterexample): a 300 response — not a 2xx — is NOT surfaced as a
backend failure: `raise_for_status` raises only for status codes in
[400, 600), so the dispatcher returns the body as a success. -/
theorem c6_counterexample :
    call_mcp_server (fun _ => ⟨300, .str "body"⟩) "list_tasks" (.obj []) regListTasks "http://x"
        = .ok (.str "body")
      ∧ ¬ (200 ≤ 300 ∧ 300 < 300) :=
  ⟨rfl, by decide⟩

/-- C6 (amended): for every tool that resolves in the registry and every
mapping-shaped arguments value, dispatch issues its request to the URL formed
by the base URL with trailing slashes stripped concatenated with the tool's
declared path (or `/mcp/<name>` when the path is absent); a GET-method tool
receives the arguments verbatim as query parameters, any other (POST being
the default) receives them verbatim as the JSON body; and a 4xx/5xx response
(status in [400, 600)) is surfaced as a backend failure. -/
theorem c6_dispatch_invocation (toolName cname : String) (td : ToolDef)
    (tools : List (String × ToolDef)) (base : String) (fs : List (String × Json))
    (hres : resolveTool toolName tools = some (cname, td)) :
    ∃ req : HttpRequest,
      mcpRequest toolName (.obj fs) tools base = .ok req
      ∧ req.url = stripTrailingSlashes base ++
          (match td.path with
           | some p => if p = "" then "/mcp/" ++ cname else p
           | none => "/mcp/" ++ cname)
      ∧ (if strUpper (td.method.getD "POST") = "GET"
         then req.method = "GET" ∧ req.params = some (.obj fs) ∧ req.body = none
         else req.method = "POST" ∧ req.params = none ∧ req.body = some (.obj fs))
      ∧ ∀ http : HttpRequest → HttpResponse,
          call_mcp_server http toolName (.obj fs) tools base =
            if 400 ≤ (http req).status ∧ (http req).status < 600
            then .error (.httpError (http req).status)
            else .ok (http req).body := by
  by_cases hm : strUpper (td.method.getD "POST") = "GET"
  · refine ⟨⟨"GET", stripTrailingSlashes base ++
        (match td.path with
         | some p => if p = "" then "/mcp/" ++ cname else p
         | none => "/mcp/" ++ cname), some (.obj fs), none⟩, ?_, rfl, ?_, ?_⟩
    · simp [mcpRequest, hres, Json.isObj, hm]
    · simp [hm]
    · intro http
      simp [call_mcp_server, mcpRequest, hres, Json.isObj, hm]
  · refine ⟨⟨"POST", stripTrailingSlashes base ++
        (match td.path with
         | some p => if p = "" then "/mcp/" ++ cname else p
         | none => "/mcp/" ++ cname), none, some (.obj fs)⟩, ?_, rfl, ?_, ?_⟩
    · simp [mcpRequest, hres, Json.isObj, hm]
    · simp [hm]
    · intro http
      simp [call_mcp_server, mcpRequest, hres, Json.isObj, hm]

/-- C6 (witness): the spec's own scenario — `list_tasks` with declared path
`/mcp/list_tasks` and default POST method against a base URL with a trailing
slash. -/
theorem c6_witness :
    ∃ req : HttpRequest,
      mcpRequest "list_tasks" (.obj []) regListTasks "http://localhost:8000/" = .ok req
      ∧ req.url = stripTrailingSlashes "http://localhost:8000/" ++
          (match (⟨none, some "/mcp/list_tasks"⟩ : ToolDef).path with
           | some p => if p = "" then "/mcp/" ++ "list_tasks" else p
           | none => "/mcp/" ++ "list_tasks")
      ∧ (if strUpper ((⟨none, some "/mcp/list_tasks"⟩ : ToolDef).method.getD "POST") = "GET"
         then req.method = "GET" ∧ req.params = some (.obj []) ∧ req.body = none
         else req.method = "POST" ∧ req.params = none ∧ req.body = some (.obj []))
      ∧ ∀ http : HttpRequest → HttpResponse,
          call_mcp_server http "list_tasks" (.obj []) regListTasks "http://localhost:8000/" =
            if 400 ≤ (http req).status ∧ (http req).status < 600
            then .error (.httpError (http req).status)
            else .ok (http req).body :=
  c6_dispatch_invocation "list_tasks" "list_tasks" ⟨none, some "/mcp/list_tasks"⟩
    regListTasks "http://localhost:8000/" [] rfl

/-- C7: the `functions` field of the outbound model payload carries value
`ts` exactly when a non-empty tool schema `ts` was supplied — with an empty
or absent tool list the field is never added. -/
theorem c7_functions_field (messages : List Json) (model : String)
    (tools : Option (List Json)) (ts : List Json) :
    (buildModelPayload messages model tools).functions = some ts
      ↔ tools = some ts ∧ ts ≠ [] := by
  cases tools with
  | none => simp [buildModelPayload]
  | some l =>
    cases l with
    | nil => simp [buildModelPayload]
    | cons a l =>
      simp only [buildModelPayload, Option.some.injEq]
      constructor
      · rintro rfl
        exact ⟨rfl, by simp⟩
      · rintro ⟨rfl, _⟩
        rfl

/-- C8: a tool name resolving neither exactly nor after normalization makes
dispatch fail with the unknown-tool `RuntimeError` whose message enumerates
exactly the valid tool names of the registry (sorted, comma-joined). -/
theorem c8_unknown_tool_enumeration (http : HttpRequest → HttpResponse) (toolName : String)
    (args : Json) (tools : List (String × ToolDef)) (base : String)
    (hname : resolveTool toolName tools = none) :
    ∃ enum : List String,
      call_mcp_server http toolName args tools base
          = .error (.runtimeError ("Unknown tool: \x27" ++ toolName
              ++ "\x27. Valid tools are: " ++ String.intercalate ", " enum))
        ∧ ∀ k, k ∈ enum ↔ k ∈ tools.map Prod.fst := by
  refine ⟨sortStrings (tools.map Prod.fst), ?_, fun k => mem_sortStrings k _⟩
  simp [call_mcp_server, mcpRequest, hname, unknownToolMsg]

/-- C8 (witness): the spec's scenario — `"frobulate"` against the registry
holding `list_tasks` and `add_task`. -/
theorem c8_witness :
    ∃ enum : List String,
      call_mcp_server httpOk "frobulate" (.obj []) regTwo "http://x"
          = .error (.runtimeError ("Unknown tool: \x27" ++ "frobulate"
              ++ "\x27. Valid tools are: " ++ String.intercalate ", " enum))
        ∧ ∀ k, k ∈ enum ↔ k ∈ regTwo.map Prod.fst :=
  c8_unknown_tool_enumeration httpOk "frobulate" (.obj []) regTwo "http://x" rfl

/-- C9: the extractor is a pure function of the model response — its result
does not depend on the ambient output state (the stdout produced so far),
so extracting the same response twice yields the same record or null both
times. -/
theorem c9_extract_deterministic (r : Json) (s1 s2 : List String) :
    (extractRun r s1).1 = (extractRun r s2).1 := by
  unfold extractRun
  repeat' split
  all_goals rfl

/-- C10: the dispatcher validates the tool name before the argument shape —
an unresolvable name fails with the unknown-tool error even when the
arguments value is not a mapping, and the invalid-arguments error can only
ever be produced once the name has resolved. -/
theorem c10_name_before_args (http : HttpRequest → HttpResponse) (toolName : String)
    (args : Json) (tools : List (String × ToolDef)) (base : String)
    (hname : resolveTool toolName tools = none) (_hargs : args.isObj = false) :
    call_mcp_server http toolName args tools base
        = .error (.runtimeError (unknownToolMsg toolName tools))
      ∧ ∀ (h2 : HttpRequest → HttpResponse) (n2 : String) (a2 : Json)
          (t2 : List (String × ToolDef)) (b2 : String),
          call_mcp_server h2 n2 a2 t2 b2 = .error (.runtimeError (invalidArgsMsg a2)) →
          resolveTool n2 t2 ≠ none := by
  constructor
  · simp [call_mcp_server, mcpRequest, hname]
  · intro h2 n2 a2 t2 b2 hcall hres
    simp [call_mcp_server, mcpRequest, hres] at hcall
    exact unknown_ne_invalid n2 t2 a2 hcall

/-- C10 (witness): `"frobulate"` with the non-mapping arguments value `"x"`
still fails as unknown-tool, not invalid-arguments. -/
theorem c10_witness :
    call_mcp_server httpOk "frobulate" (.str "x") regTwo "http://x"
        = .error (.runtimeError (unknownToolMsg "frobulate" regTwo))
      ∧ ∀ (h2 : HttpRequest → HttpResponse) (n2 : String) (a2 : Json)
          (t2 : List (String × ToolDef)) (b2 : String),
          call_mcp_server h2 n2 a2 t2 b2 = .error (.runtimeError (invalidArgsMsg a2)) →
          resolveTool n2 t2 ≠ none :=
  c10_name_before_args httpOk "frobulate" (.str "x") regTwo "http://x" rfl rfl

end MCP
